import Mathlib

/-!
Shallow embedding of the Virtual Chain Sandbox repository (mock EVVM/Arcology
benchmarking plugin) and proofs about its claims.

Modelling conventions:
* `Math.random()` draws and `Date.now()` / `new Date()` clock readings are
  explicit input streams.  Each simulated transaction's per-call draws are
  taken from a per-transaction environment (`TxEnv`), with a fixed stream
  index per syntactic call site in the source.  `TxEnv` also carries a
  `net` stream standing for any external/network input; the code performs
  no network calls, so no definition below ever consults it — which is
  exactly what the noninterference theorem for claim C2 establishes.
* JavaScript numbers that stay integral are `Nat`/`Int`; fractional
  arithmetic (`tps`, average latency) is `Rat`.  Division by zero yields
  `0` in `Rat` where JS would produce `Infinity`/`NaN`; no claim below
  inspects a value in such a state.
* Solidity 0.8 `uint256` arithmetic is `Nat` with an explicit
  overflow check against `2 ^ 256` (checked arithmetic reverts on
  overflow); revert is `Option.none`.
-/

namespace VSandbox

/-- Result of `Math.floor(r * n)` where `r` is a `Math.random()` draw. -/
def jsFloorMul (r : Rat) (n : Nat) : Nat := (r * (n : Rat)).floor.toNat

/-- JS `s || d` for an optional string field: `none` (absent) and the empty
string (falsy) both fall back to the default. -/
def jsOrString (v : Option String) (d : String) : String :=
  match v with
  | none => d
  | some s => if s = "" then d else s

/-- JS `x || d` for an optional numeric field: `none` (absent) and `0`
(falsy) both fall back to the default. -/
def jsOrNat (v : Option Nat) (d : Nat) : Nat :=
  match v with
  | none => d
  | some n => if n = 0 then d else n

/-- Character for one base-`b` digit, as in JS `Number.prototype.toString`
(digits `0`-`9` then `a`-`z`). -/
def digitChar (d : Nat) : Char :=
  if d < 10 then Char.ofNat (48 + d) else Char.ofNat (87 + d)

/-- First `n` base-`base` fraction digits of `r ∈ [0,1)`. -/
def fracDigits (base : Nat) (r : Rat) (n : Nat) : List Nat :=
  (List.range n).map (fun k => (r * (base : Rat) ^ (k + 1)).floor.toNat % base)

/-- Drop trailing zero digits, as JS `toString` prints no trailing zeros. -/
def stripTrailingZeros (l : List Nat) : List Nat :=
  (l.reverse.dropWhile (fun d => d = 0)).reverse

/-- Models `r.toString(base).substr(2, n)` for a `Math.random()` draw `r`:
up to `n` fraction digits of `r` in the given base, trailing zeros omitted
(JS prints only the digits needed for the double; only determinism in `r`
and, at call sites, the prepended literal prefix are relied upon below). -/
def jsRandomDigits (base : Nat) (r : Rat) (n : Nat) : String :=
  String.mk ((stripTrailingZeros (fracDigits base r n)).map digitChar)

/-- Models `new Date(t).toISOString()`: a deterministic rendering of the
millisecond clock value `t`.  No claim inspects the exact format. -/
def isoTimestamp (t : Int) : String := toString t

/-- Environment of one simulated transaction (or of one top-level
operation): its successive `Math.random()` draws, its successive
`Date.now()` readings, and a hypothetical external/network input stream
that the code never reads. -/
structure TxEnv where
  rand : Nat → Rat
  time : Nat → Int
  net : Nat → Int

/-- The locally observable part of an environment: random draws and clock
readings, without the external stream. -/
def TxEnv.obs (e : TxEnv) : (Nat → Rat) × (Nat → Int) := (e.rand, e.time)

/-- Map with an explicit starting index: `mapIdxFrom f k [a, b, ...] =
[f k a, f (k+1) b, ...]`.  Used to transcribe JS loops and `map` calls
whose callback receives the element index. -/
def mapIdxFrom (f : Nat → α → β) : Nat → List α → List β
  | _, [] => []
  | k, a :: l => f k a :: mapIdxFrom f (k + 1) l

/-- Pair each transaction with its per-transaction environment. -/
def attachEnvs (txs : List α) (es : Nat → TxEnv) : List (α × TxEnv) :=
  mapIdxFrom (fun i tx => (tx, es i)) 0 txs

/-- `chunkArray` of `src/integrations/evvm.ts` (identical code to
`createConflictFreeGroups` in `arcology.ts`): slice the array into
consecutive chunks of `size` elements.  The JS loop does not terminate for
`size = 0`; the model returns `[]` there and every theorem about chunked
execution assumes `size ≥ 1`. -/
def chunkArray : List α → Nat → List (List α)
  | [], _ => []
  | _ :: _, 0 => []
  | a :: rest, size + 1 =>
      (a :: rest).take (size + 1) :: chunkArray ((a :: rest).drop (size + 1)) (size + 1)
termination_by l => l.length
decreasing_by
  simp only [List.length_drop, List.length_cons]
  omega

/-- `createConflictFreeGroups` of `arcology.ts`: same slicing loop as
`chunkArray`. -/
def createConflictFreeGroups (l : List α) (groupSize : Nat) : List (List α) :=
  chunkArray l groupSize

/-- `ArcologyTransaction` of `arcology.ts`.  The source field `to` is a
Lean keyword, so it is named `toAddr` here. -/
structure ArcologyTransaction where
  toAddr : String
  data : String
  value : Option String := none
  gasLimit : Option String := none
  nonce : Option Nat := none
deriving DecidableEq

/-- `ArcologyExecutionResult` of `arcology.ts`.  `gasUsed` is stored as a
decimal string in the source and parsed back with `BigInt(gasUsed || "0")`;
the round-trip is modelled by keeping the number. -/
structure ArcologyExecutionResult where
  success : Bool
  transactionHash : Option String := none
  gasUsed : Option Nat := none
  error : Option String := none
  executionTime : Option Int := none
  parallelGroup : Option Nat := none
deriving DecidableEq

/-- Per-transaction body of the `executeSerial` loop in `arcology.ts`,
for the transaction at (global) position `i`.  Stream use: `rand 0` is the
delay draw (`Math.random() * 50 + 20`), `rand 1` the success draw
(success iff `> 0.05`), `rand 2` the transaction-hash draw, `rand 3` the
gas draw; `time 0` is `txStartTime` and `time 1` the `Date.now()` reading
after the delay.  The transaction's fields are not read by the body. -/
def arcologySerialTx (e : TxEnv) (i : Nat) : ArcologyExecutionResult :=
  if e.rand 1 > 1/20 then
    { success := true
      transactionHash := some ("0x" ++ jsRandomDigits 16 (e.rand 2) 64)
      gasUsed := some (21000 + jsFloorMul (e.rand 3) 1000)
      executionTime := some (e.time 1 - e.time 0) }
  else
    { success := false
      error := some ("Transaction " ++ toString i ++ " failed: Mock error")
      executionTime := some (e.time 1 - e.time 0) }

/-- Per-transaction body of the `executeParallel` group closure in
`arcology.ts` (group `groupIndex`, position `txIndex` inside the group).
Stream use as in `arcologySerialTx` but with the parallel parameters:
delay `rand 0` (`* 15 + 5`), success draw `rand 1` (success iff `> 0.01`),
hash `rand 2`, gas `rand 3` (`15000 + floor(rand * 300)`). -/
def arcologyParallelTx (e : TxEnv) (groupIndex txIndex : Nat) : ArcologyExecutionResult :=
  if e.rand 1 > 1/100 then
    { success := true
      transactionHash := some ("0x" ++ jsRandomDigits 16 (e.rand 2) 64)
      gasUsed := some (15000 + jsFloorMul (e.rand 3) 300)
      executionTime := some (e.time 1 - e.time 0)
      parallelGroup := some groupIndex }
  else
    { success := false
      error := some ("Transaction " ++ toString txIndex ++ " in group "
        ++ toString groupIndex ++ " failed: Conflict detected")
      executionTime := some (e.time 1 - e.time 0)
      parallelGroup := some groupIndex }

/-- `ArcologyClient.executeSerial`: one result per transaction, pushed in
input order by the `for` loop. -/
def executeSerial (l : List (ArcologyTransaction × TxEnv)) : List ArcologyExecutionResult :=
  mapIdxFrom (fun i p => arcologySerialTx p.2 i) 0 l

/-- `ArcologyClient.executeParallel`: the transactions are chunked into
groups of `concurrency`, each group is mapped through the per-transaction
closure and awaited with `Promise.all` (which preserves the order of its
input array), and the group results are appended group by group. -/
def executeParallel (l : List (ArcologyTransaction × TxEnv)) (concurrency : Nat) :
    List ArcologyExecutionResult :=
  (mapIdxFrom
    (fun groupIndex group =>
      mapIdxFrom (fun txIndex p => arcologyParallelTx p.2 groupIndex txIndex) 0 group)
    0 (createConflictFreeGroups l concurrency)).flatten

/-- `ArcologyBenchmarkResult` of `arcology.ts`. -/
structure ArcologyBenchmarkResult where
  mode : String
  totalTransactions : Nat
  successfulTransactions : Nat
  failedTransactions : Nat
  totalTimeMs : Int
  averageLatencyMs : Rat
  tps : Rat
  totalGasUsed : Nat
  averageGasPerTx : Nat
  parallelGroups : Nat
  errors : List String
  timestamp : String
deriving DecidableEq

/-- `ArcologyClient.calculateBenchmarkResult`.  `now` is the
`new Date()` reading for the timestamp.  `averageLatencyMs` and `tps`
divide by zero (JS `NaN`/`Infinity`, here `0`) when `results` is empty or
the total time is zero; no claim inspects them in that state.
`Math.ceil(totalTransactions / 4)` is `(totalTransactions + 3) / 4`. -/
def calculateBenchmarkResult (mode : String) (results : List ArcologyExecutionResult)
    (totalTransactions : Nat) (now : Int) : ArcologyBenchmarkResult :=
  let successfulResults := results.filter (fun r => r.success)
  let failedResults := results.filter (fun r => !r.success)
  let totalTime : Int := (results.map (fun r => r.executionTime.getD 0)).sum
  { mode := mode
    totalTransactions := totalTransactions
    successfulTransactions := successfulResults.length
    failedTransactions := failedResults.length
    totalTimeMs := totalTime
    averageLatencyMs := (totalTime : Rat) / (results.length : Rat)
    tps := ((successfulResults.length : Rat) / (totalTime : Rat)) * 1000
    totalGasUsed := (successfulResults.map (fun r => r.gasUsed.getD 0)).sum
    averageGasPerTx := (successfulResults.map (fun r => r.gasUsed.getD 0)).sum
      / (if successfulResults.length = 0 then 1 else successfulResults.length)
    parallelGroups := if mode = "parallel" then (totalTransactions + 3) / 4 else 1
    errors := failedResults.map (fun r => r.error.getD "Unknown error")
    timestamp := isoTimestamp now }

/-- `EVVMTransaction` of `evvm.ts`.  The source field `to` is a Lean
keyword, so it is named `toAddr` here. -/
structure EVVMTransaction where
  toAddr : String
  data : String
  value : Option String := none
  gasLimit : Option String := none
  nonce : Option Nat := none
  async : Option Bool := none
deriving DecidableEq

/-- `EVVMExecutionResult` of `evvm.ts` (`logs` is always `[]` where set). -/
structure EVVMExecutionResult where
  success : Bool
  transactionHash : Option String := none
  gasUsed : Option Nat := none
  error : Option String := none
  logs : List String := []
deriving DecidableEq

/-- `EVVMClient.executeTransaction`.  Stream use: `rand 0` delay draw
(`* 80 + 40`), `rand 1` success draw (success iff `> 0.03`), `rand 2`
hash, `rand 3` gas (`18000 + floor(rand * 800)`).  Neither `instanceId`
nor any field of the transaction influences the result (visible in the
source body, which only logs them). -/
def executeTransaction (_instanceId : String) (_tx : EVVMTransaction) (e : TxEnv) :
    EVVMExecutionResult :=
  if e.rand 1 > 3/100 then
    { success := true
      transactionHash := some ("0x" ++ jsRandomDigits 16 (e.rand 2) 64)
      gasUsed := some (18000 + jsFloorMul (e.rand 3) 800)
      logs := [] }
  else
    { success := false
      error := some "Transaction failed: Execution function error" }

/-- The `{ ...tx, async: true, nonce: tx.nonce || index }` modification
applied inside `executeParallelTransactions` (`index` is the position
inside the chunk; a `0` nonce is falsy in JS). -/
def withAsyncNonce (tx : EVVMTransaction) (index : Nat) : EVVMTransaction :=
  { tx with async := some true, nonce := some (jsOrNat tx.nonce index) }

/-- `EVVMClient.executeParallelTransactions`: chunk, map each chunk through
`executeTransaction` on the async-nonce variant of the transaction,
`Promise.all` each chunk (order preserving), append chunk results. -/
def executeParallelTransactions (instanceId : String) (l : List (EVVMTransaction × TxEnv))
    (concurrency : Nat) : List EVVMExecutionResult :=
  ((chunkArray l concurrency).map
    (fun chunk =>
      mapIdxFrom (fun index p => executeTransaction instanceId (withAsyncNonce p.1 index) p.2)
        0 chunk)).flatten

/-- The `EVVMInstance` record of `plugin.mjs` (all fields strings). -/
structure EVVMInstance where
  id : String
  name : String
  contractAddress : String
  status : String
  createdAt : String
  lastActivity : String
deriving DecidableEq

/-- The (partial) record passed to the `EVVMInstance` constructor:
`none` models an absent property. -/
structure EVVMInstanceInit where
  id : Option String := none
  name : Option String := none
  contractAddress : Option String := none
  status : Option String := none
  createdAt : Option String := none
  lastActivity : Option String := none

/-- The fresh id generated by the `EVVMInstance` constructor:
`evvm-${Date.now()}-${Math.random().toString(36).substr(2, 9)}`. -/
def freshInstanceId (e : TxEnv) : String :=
  "evvm-" ++ toString (e.time 0) ++ "-" ++ jsRandomDigits 36 (e.rand 0) 9

/-- The `EVVMInstance` constructor of `plugin.mjs`: every field is
`input || default`, so an absent or empty-string field falls back to the
default (a fresh id, `"test-instance"`, `""`, `"initialized"`, or the
current ISO timestamp).  Stream use: `rand 0`/`time 0` for the fresh id,
`time 1` and `time 2` for the two `new Date().toISOString()` defaults. -/
def EVVMInstance.create (e : TxEnv) (init : EVVMInstanceInit) : EVVMInstance :=
  { id := jsOrString init.id (freshInstanceId e)
    name := jsOrString init.name "test-instance"
    contractAddress := jsOrString init.contractAddress ""
    status := jsOrString init.status "initialized"
    createdAt := jsOrString init.createdAt (isoTimestamp (e.time 1))
    lastActivity := jsOrString init.lastActivity (isoTimestamp (e.time 2)) }

/-- `EVVMPlugin.initInstance`: construct an instance from
`{ name, status: "initialized" }`. -/
def initInstance (e : TxEnv) (name : String) : EVVMInstance :=
  EVVMInstance.create e { name := some name, status := some "initialized" }

/-- `EVVMPlugin.deployContract`: construct an instance from the spread of
the input instance with a fresh random contract address
(`0x` + 40 random hex digits, drawn from `rand 1`), status `"deployed"`
and a fresh `lastActivity` timestamp (`time 3`).  The contract name is
only logged. -/
def deployContract (e : TxEnv) (inst : EVVMInstance) (_contractName : String) : EVVMInstance :=
  EVVMInstance.create e
    { id := some inst.id
      name := some inst.name
      contractAddress := some ("0x" ++ jsRandomDigits 16 (e.rand 1) 40)
      status := some "deployed"
      createdAt := some inst.createdAt
      lastActivity := some (isoTimestamp (e.time 3)) }

/-- The `BenchmarkResult` record of `plugin.mjs` (gas figures kept as
numbers; the source stores their decimal strings). -/
structure BenchmarkResult where
  mode : String
  totalTransactions : Nat
  successfulTransactions : Nat
  failedTransactions : Nat
  totalTimeMs : Int
  averageLatencyMs : Rat
  tps : Rat
  totalGasUsed : Nat
  averageGasPerTx : Nat
  errors : List String
  timestamp : String
deriving DecidableEq

/-- Environment of one `runBenchmark` call: `glob` supplies the outer
`Date.now()` readings (`time 0` start, `time 1` end, `time 2` the result
timestamp), `perTx i` the draws of the `i`-th simulated transaction. -/
structure RunEnv where
  glob : TxEnv
  perTx : Nat → TxEnv

/-- `EVVMPlugin.simulateParallelTx`: delay draw `rand 0` (`* 5 + 2`), gas
`18000 + floor(rand 1 * 500)`.  The promise always fulfils. -/
def simulateParallelTx (e : TxEnv) : Nat := 18000 + jsFloorMul (e.rand 1) 500

/-- `EVVMPlugin.simulateAsyncTx`: delay draw `rand 0` (`* 8 + 3`), gas
`18000 + floor(rand 1 * 800)`.  The promise always fulfils. -/
def simulateAsyncTx (e : TxEnv) : Nat := 18000 + jsFloorMul (e.rand 1) 800

/-- The serial loop of `EVVMPlugin.runBenchmark`: per transaction, a delay
draw (`rand 0`) and a gas draw (`21000 + floor(rand 1 * 1000)`); the
awaited `setTimeout` promise never rejects, so the `catch` branch is
unreachable and every iteration increments `successfulTxs`.  Returns
`(successfulTxs, totalGasUsed)`. -/
def serialLoop (env : Nat → TxEnv) (txCount : Nat) : Nat × Nat :=
  (List.range txCount).foldl
    (fun acc i => (acc.1 + 1, acc.2 + (21000 + jsFloorMul ((env i).rand 1) 1000)))
    (0, 0)

/-- The parallel loop of `EVVMPlugin.runBenchmark`: batches of
`min txCount concurrency` transactions, `Math.ceil` many batches, each
batch settled with `Promise.allSettled`; `simulateParallelTx` never
rejects, so every settled result is fulfilled.  Returns
`(successfulTxs, totalGasUsed)`. -/
def parallelLoop (env : Nat → TxEnv) (txCount concurrency : Nat) : Nat × Nat :=
  let batchSize := min txCount concurrency
  let batches := (txCount + batchSize - 1) / batchSize
  (List.range batches).foldl
    (fun acc batch =>
      let batchTxs := min batchSize (txCount - batch * batchSize)
      (List.range batchTxs).foldl
        (fun a i => (a.1 + 1, a.2 + simulateParallelTx (env (batch * batchSize + i))))
        acc)
    (0, 0)

/-- The `evvm-async` branch of `EVVMPlugin.runBenchmark`: all `txCount`
promises settled at once; `simulateAsyncTx` never rejects. -/
def asyncLoop (env : Nat → TxEnv) (txCount : Nat) : Nat × Nat :=
  (List.range txCount).foldl
    (fun acc i => (acc.1 + 1, acc.2 + simulateAsyncTx (env i)))
    (0, 0)

/-- `EVVMPlugin.runBenchmark`.  The instance argument is only logged.  No
branch can reject or throw, so `errors` stays empty and
`failedTransactions = txCount - successfulTxs` (the truncated `Nat`
subtraction agrees with JS because `successfulTxs ≤ txCount`, proved
below).  An unrecognised mode runs no loop at all. -/
def runBenchmark (env : RunEnv) (_inst : EVVMInstance) (mode : String)
    (txCount concurrency : Nat) : BenchmarkResult :=
  let sg : Nat × Nat :=
    if mode = "serial" then serialLoop env.perTx txCount
    else if mode = "parallel" then parallelLoop env.perTx txCount concurrency
    else if mode = "evvm-async" then asyncLoop env.perTx txCount
    else (0, 0)
  let totalTime : Int := env.glob.time 1 - env.glob.time 0
  { mode := mode
    totalTransactions := txCount
    successfulTransactions := sg.1
    failedTransactions := txCount - sg.1
    totalTimeMs := totalTime
    averageLatencyMs := (totalTime : Rat) / (sg.1 : Rat)
    tps := ((sg.1 : Rat) / (totalTime : Rat)) * 1000
    totalGasUsed := sg.2
    averageGasPerTx := sg.2 / (if sg.1 = 0 then 1 else sg.1)
    errors := []
    timestamp := isoTimestamp (env.glob.time 2) }

/-- The saved contents of one `benchmark-results/<id>-<ts>.json` file
written by the `benchmark` CLI command / hardhat task. -/
structure BenchmarkRun where
  instanceId : String
  txCount : Nat
  mode : String
  results : List BenchmarkResult
  timestamp : String
deriving DecidableEq

/-- The on-disk JSON state the CLI commands read and write: the parsed
`instances/<id>.json` files (keyed by the id in the file name) and the
`benchmark-results/*.json` files (keyed by their file name). -/
structure FSState where
  instances : List (String × EVVMInstance)
  results : List (String × BenchmarkRun)
deriving DecidableEq

/-- Path of an instance file: `instances/<id>.json`. -/
def instancePath (id : String) : String := "instances/" ++ id ++ ".json"

/-- Path of a benchmark-results file:
`benchmark-results/<id>-<Date.now()>.json`. -/
def resultsPath (id : String) (now : Int) : String :=
  "benchmark-results/" ++ id ++ "-" ++ toString now ++ ".json"

/-- Read `instances/<id>.json` if present (`fs.pathExists` + `readJson`). -/
def lookupInstance (fs : FSState) (id : String) : Option EVVMInstance :=
  (fs.instances.find? (fun p => p.1 == id)).map (fun p => p.2)

/-- Write `instances/<id>.json` (`fs.writeJson`, overwriting). -/
def writeInstance (fs : FSState) (id : String) (v : EVVMInstance) : FSState :=
  { fs with instances := (id, v) :: fs.instances.filter (fun p => p.1 != id) }

/-- Outcome of one CLI command: the resulting file state, the returned or
thrown (`Except.error`) value, and the lists of file paths the command
read and wrote. -/
structure ActionResult (α : Type) where
  fs : FSState
  out : Except String α
  reads : List String
  writes : List String

/-- The `init` command / `evvm:init` task: create an instance and write
`instances/<id>.json` (the `ensureDir` call creates a directory, not a
JSON file). -/
def initAction (e : TxEnv) (fs : FSState) (name : String) : ActionResult EVVMInstance :=
  let inst := initInstance e name
  { fs := writeInstance fs inst.id inst
    out := Except.ok inst
    reads := []
    writes := [instancePath inst.id] }

/-- The `deploy` command / `evvm:deploy` task: if `instances/<id>.json`
does not exist, throw `Instance <id> not found` before touching any file;
otherwise read it, deploy, and write the updated instance back. -/
def deployAction (e : TxEnv) (fs : FSState) (instanceId contract : String) :
    ActionResult EVVMInstance :=
  match lookupInstance fs instanceId with
  | none =>
      { fs := fs
        out := Except.error ("Instance " ++ instanceId ++ " not found")
        reads := [instancePath instanceId]
        writes := [] }
  | some inst =>
      let deployed := deployContract e inst contract
      { fs := writeInstance fs instanceId deployed
        out := Except.ok deployed
        reads := [instancePath instanceId]
        writes := [instancePath instanceId] }

/-- The `benchmark` command / `evvm:benchmark` task: if
`instances/<id>.json` does not exist, throw `Instance <id> not found`
before touching any file; otherwise run the selected benchmark modes
(`all` runs the three of them, each with the plugin's default concurrency
`4`) and write one new `benchmark-results/<instance.id>-<now>.json` file.
`e1`, `e2`, `e3` are the environments of the three possible
`runBenchmark` calls and `now` the `Date.now()` of the file name. -/
def benchmarkAction (e1 e2 e3 : RunEnv) (now : Int) (fs : FSState)
    (instanceId mode : String) (txCount : Nat) : ActionResult (List BenchmarkResult) :=
  match lookupInstance fs instanceId with
  | none =>
      { fs := fs
        out := Except.error ("Instance " ++ instanceId ++ " not found")
        reads := [instancePath instanceId]
        writes := [] }
  | some inst =>
      let rs1 := if mode = "all" ∨ mode = "serial" then
        [runBenchmark e1 inst "serial" txCount 4] else []
      let rs2 := if mode = "all" ∨ mode = "parallel" then
        [runBenchmark e2 inst "parallel" txCount 4] else []
      let rs3 := if mode = "all" ∨ mode = "evvm-async" then
        [runBenchmark e3 inst "evvm-async" txCount 4] else []
      let results := rs1 ++ rs2 ++ rs3
      let fileName := resultsPath inst.id now
      { fs := { fs with
          results := (fileName,
            { instanceId := inst.id, txCount := txCount, mode := mode,
              results := results, timestamp := isoTimestamp now }) :: fs.results }
        out := Except.ok results
        reads := [instancePath instanceId]
        writes := [fileName] }

/-- The `list` command / `evvm:list` task: read every
`instances/*.json` file and return the parsed instances. -/
def listAction (fs : FSState) : ActionResult (List EVVMInstance) :=
  { fs := fs
    out := Except.ok (fs.instances.map (fun p => p.2))
    reads := fs.instances.map (fun p => instancePath p.1)
    writes := [] }

/-- The `demo` command / `evvm:demo` task: init, deploy and three
benchmark runs (50 transactions each, plugin default concurrency 4),
entirely in memory — it reads and writes no files. -/
def demoAction (e1 e2 : TxEnv) (b1 b2 b3 : RunEnv) (fs : FSState) :
    ActionResult (BenchmarkResult × BenchmarkResult × BenchmarkResult) :=
  let inst := initInstance e1 "demo-instance"
  let deployed := deployContract e2 inst "ParallelCounter"
  let serialResult := runBenchmark b1 deployed "serial" 50 4
  let parallelResult := runBenchmark b2 deployed "parallel" 50 4
  let evvmResult := runBenchmark b3 deployed "evvm-async" 50 4
  { fs := fs
    out := Except.ok (serialResult, parallelResult, evvmResult)
    reads := []
    writes := [] }

/-- The commander commands registered by `cli.cjs`
(`program.command(...)`), in registration order. -/
def commanderCommands : List String := ["init", "deploy", "benchmark", "list", "demo"]

/-- The hardhat tasks registered by `src/hardhat3-plugin.mjs` (and, demo
excepted, by the `tasks.ts` variant), in registration order. -/
def hardhatTaskNames : List String :=
  ["evvm:init", "evvm:deploy", "evvm:benchmark", "evvm:list", "evvm:demo"]

/-- A path under `instances/` with a `.json` extension. -/
def isInstancePath (p : String) : Prop := ∃ id, p = instancePath id

/-- A path under `benchmark-results/` with a `.json` extension. -/
def isResultsPath (p : String) : Prop := ∃ id now, p = resultsPath id now

/-- Solidity `uint256` modulus. -/
def U256 : Nat := 2 ^ 256

/-- Solidity 0.8 checked `uint256` addition: reverts (`none`) on
overflow. -/
def checkedAdd (a b : Nat) : Option Nat :=
  if a + b < U256 then some (a + b) else none

/-- Storage of the `Counter` contract (`_count`, `_lastIncrement`,
`_owner`). -/
structure CounterState where
  count : Nat
  lastIncrement : Nat
  owner : Nat
deriving DecidableEq

/-- The `for` loop of `Counter.batchIncrement`: `iterations` checked
increments of `_count`, reverting at the first overflow. -/
def incrLoop : Nat → Nat → Option Nat
  | c, 0 => some c
  | c, k + 1 => (checkedAdd c 1).bind (fun c2 => incrLoop c2 k)

/-- `Counter.batchIncrement`: `require(iterations > 0)`,
`require(iterations <= 100)`, then the increment loop and
`_lastIncrement = block.timestamp`.  Any caller may invoke it (no
`onlyOwner` modifier); the emitted event is not modelled. -/
def Counter.batchIncrement (s : CounterState) (timestamp iterations : Nat) :
    Option CounterState :=
  if iterations = 0 then none
  else if 100 < iterations then none
  else (incrLoop s.count iterations).map
    (fun c => { s with count := c, lastIncrement := timestamp })

/-- Storage of the `ParallelCounter` contract (`_count`,
`_lastIncrement`, `_totalIncrements`, `_owner`). -/
structure PCounterState where
  count : Nat
  lastIncrement : Nat
  totalIncrements : Nat
  owner : Nat
deriving DecidableEq

/-- `ParallelCounter.batchIncrement`: the same two `require` guards, then
single checked updates `_count += iterations`,
`_totalIncrements += iterations` (in source order) and
`_lastIncrement = block.timestamp`. -/
def ParallelCounter.batchIncrement (s : PCounterState) (timestamp iterations : Nat) :
    Option PCounterState :=
  if iterations = 0 then none
  else if 100 < iterations then none
  else (checkedAdd s.count iterations).bind
    (fun c => (checkedAdd s.totalIncrements iterations).map
      (fun t => { s with count := c, totalIncrements := t, lastIncrement := timestamp }))

/-- Concrete environment for witnesses: draw `1/2`, clock `k`, external
stream `0`. -/
def txEnvA : TxEnv := { rand := fun _ => 1/2, time := fun k => (k : Int), net := fun _ => 0 }

/-- Same observable behaviour as `txEnvA` but a different external
stream. -/
def txEnvB : TxEnv := { rand := fun _ => 1/2, time := fun k => (k : Int), net := fun _ => 9 }

/-- Environment whose random draws are all `0` (every draw falls at or
below any nonnegative threshold). -/
def zeroTxEnv : TxEnv := { rand := fun _ => 0, time := fun _ => 0, net := fun _ => 0 }

/-- Benchmark-run environment built from `txEnvA`. -/
def runEnvA : RunEnv := { glob := txEnvA, perTx := fun _ => txEnvA }

/-- Benchmark-run environment built from `txEnvB`: observationally equal
to `runEnvA`, different external stream. -/
def runEnvB : RunEnv := { glob := txEnvB, perTx := fun _ => txEnvB }

/-- Benchmark-run environment with all-zero draws. -/
def zeroRunEnv : RunEnv := { glob := zeroTxEnv, perTx := fun _ => zeroTxEnv }

/-- A concrete instance record for witnesses. -/
def sampleInstance : EVVMInstance :=
  { id := "evvm-1-abc", name := "demo", contractAddress := "",
    status := "initialized", createdAt := "100", lastActivity := "100" }

/-- A concrete instance record whose `id` is the empty string (falsy in
JS). -/
def emptyIdInstance : EVVMInstance :=
  { id := "", name := "demo", contractAddress := "",
    status := "initialized", createdAt := "100", lastActivity := "100" }

/-- A concrete transaction for witnesses. -/
def sampleArcologyTx : ArcologyTransaction := { toAddr := "0xaaaa", data := "0x01" }

/-- A concrete EVVM transaction for witnesses. -/
def sampleEVVMTx : EVVMTransaction := { toAddr := "0xbbbb", data := "0x02" }

/-- An empty on-disk state for witnesses. -/
def emptyFS : FSState := { instances := [], results := [] }

/-! ### Helper lemmas about the list combinators -/

theorem mapIdxFrom_length (f : Nat → α → β) (l : List α) : ∀ k,
    (mapIdxFrom f k l).length = l.length := by
  induction l with
  | nil => intro k; rfl
  | cons a l ih => intro k; simp [mapIdxFrom, ih]

theorem mapIdxFrom_append (f : Nat → α → β) (l1 l2 : List α) : ∀ k,
    mapIdxFrom f k (l1 ++ l2) = mapIdxFrom f k l1 ++ mapIdxFrom f (k + l1.length) l2 := by
  induction l1 with
  | nil => intro k; simp [mapIdxFrom]
  | cons a l ih =>
      intro k
      simp only [List.cons_append, mapIdxFrom, List.length_cons, List.append_eq]
      rw [ih (k + 1)]
      have h : k + 1 + l.length = k + (l.length + 1) := by omega
      rw [h]

theorem mapIdxFrom_congr (f g : Nat → α → β) (l : List α) : ∀ k,
    (∀ i a, i < l.length → f (k + i) a = g (k + i) a) →
    mapIdxFrom f k l = mapIdxFrom g k l := by
  induction l with
  | nil => intro k _; rfl
  | cons a l ih =>
      intro k h
      simp only [mapIdxFrom]
      have h0 := h 0 a (by simp)
      rw [Nat.add_zero] at h0
      rw [h0, ih (k + 1) ?_]
      intro i b hi
      have hx := h (i + 1) b (by simpa using Nat.succ_lt_succ hi)
      have hy : k + (i + 1) = k + 1 + i := by omega
      rwa [hy] at hx

theorem mapIdxFrom_shift (f : Nat → α → β) (l : List α) : ∀ k j,
    mapIdxFrom f (k + j) l = mapIdxFrom (fun i a => f (k + i) a) j l := by
  induction l with
  | nil => intro _ _; rfl
  | cons a l ih =>
      intro k j
      simp only [mapIdxFrom]
      have h : k + j + 1 = k + (j + 1) := by omega
      rw [h, ih k (j + 1)]

theorem mapIdxFrom_eq_map (f : Nat → α → β) (g : α → β) (l : List α)
    (h : ∀ i a, f i a = g a) : ∀ k, mapIdxFrom f k l = l.map g := by
  induction l with
  | nil => intro _; rfl
  | cons a l ih => intro k; simp [mapIdxFrom, h, ih]

theorem mapIdxFrom_comp (f : Nat → α → β) (g : Nat → β → γ) (l : List α) : ∀ k,
    mapIdxFrom g k (mapIdxFrom f k l) = mapIdxFrom (fun i a => g i (f i a)) k l := by
  induction l with
  | nil => intro _; rfl
  | cons a l ih => intro k; simp [mapIdxFrom, ih]

theorem mapIdxFrom_range (g : Nat → β) (l : List α) : ∀ k,
    mapIdxFrom (fun i _ => g i) k l = (List.range l.length).map (fun j => g (k + j)) := by
  induction l with
  | nil => intro _; rfl
  | cons a l ih =>
      intro k
      simp only [mapIdxFrom, List.length_cons, List.range_succ_eq_map, List.map_cons,
        List.map_map, Nat.add_zero]
      rw [ih (k + 1)]
      congr 1
      apply List.map_congr_left
      intro b _
      simp only [Function.comp_apply]
      congr 1
      omega

theorem chunkArray_nil (n : Nat) : chunkArray ([] : List α) n = [] := by
  simp [chunkArray]

theorem chunkArray_zero (l : List α) : chunkArray l 0 = [] := by
  cases l <;> simp [chunkArray]

theorem chunkArray_step (l : List α) (size : Nat) (hl : l ≠ []) (hs : size ≠ 0) :
    chunkArray l size = l.take size :: chunkArray (l.drop size) size := by
  cases l with
  | nil => exact absurd rfl hl
  | cons a rest =>
      cases size with
      | zero => exact absurd rfl hs
      | succ s => simp [chunkArray]

theorem chunkArray_flatten_of_le (size : Nat) (hs : size ≠ 0) : ∀ (n : Nat) (l : List α),
    l.length ≤ n → (chunkArray l size).flatten = l := by
  intro n
  induction n with
  | zero =>
      intro l hl
      have h : l = [] := List.eq_nil_of_length_eq_zero (Nat.le_zero.mp hl)
      simp [h, chunkArray_nil]
  | succ n ih =>
      intro l hl
      by_cases hl0 : l = []
      · simp [hl0, chunkArray_nil]
      · rw [chunkArray_step l size hl0 hs]
        simp only [List.flatten_cons]
        have hlen : (l.drop size).length ≤ n := by
          have h1 : l.length ≠ 0 := fun h => hl0 (List.eq_nil_of_length_eq_zero h)
          simp only [List.length_drop]
          omega
        rw [ih (l.drop size) hlen, List.take_append_drop]

/-- Flattening chunks of `size ≥ 1` recovers the original list. -/
theorem chunkArray_flatten (l : List α) (size : Nat) (hs : size ≠ 0) :
    (chunkArray l size).flatten = l :=
  chunkArray_flatten_of_le size hs l.length l le_rfl

/-- Core refinement lemma: mapping groups of `c` through an
index-dependent function and flattening is the same as one sequential
indexed map, with group index `i / c` and in-group index `i % c`. -/
theorem chunk_mapIdx_flatten (c : Nat) (hc : c ≠ 0) (f : Nat → Nat → α → β) :
    ∀ (n : Nat) (l : List α), l.length ≤ n → ∀ g0 : Nat,
      (mapIdxFrom (fun gi grp => mapIdxFrom (fun ti a => f gi ti a) 0 grp) g0
          (chunkArray l c)).flatten
        = mapIdxFrom (fun i a => f (g0 + i / c) (i % c) a) 0 l := by
  intro n
  induction n with
  | zero =>
      intro l hl g0
      have h : l = [] := List.eq_nil_of_length_eq_zero (Nat.le_zero.mp hl)
      simp [h, chunkArray_nil, mapIdxFrom]
  | succ n ih =>
      intro l hl g0
      by_cases hl0 : l = []
      · simp [hl0, chunkArray_nil, mapIdxFrom]
      · rw [chunkArray_step l c hl0 hc]
        simp only [mapIdxFrom, List.flatten_cons]
        have hlen : (l.drop c).length ≤ n := by
          have h1 : l.length ≠ 0 := fun h => hl0 (List.eq_nil_of_length_eq_zero h)
          simp only [List.length_drop]
          omega
        rw [ih (l.drop c) hlen (g0 + 1)]
        conv_rhs => rw [← List.take_append_drop c l]
        rw [mapIdxFrom_append]
        congr 1
        · apply mapIdxFrom_congr
          intro i a hi
          have hic : i < c := lt_of_lt_of_le hi (by simp [List.length_take])
          simp only [Nat.zero_add]
          rw [Nat.div_eq_of_lt hic, Nat.mod_eq_of_lt hic, Nat.add_zero]
        · by_cases hlc : l.length ≤ c
          · rw [List.drop_eq_nil_of_le hlc]
            rfl
          · push_neg at hlc
            have htl : (0 : Nat) + (l.take c).length = c := by
              simp [List.length_take]
              omega
            rw [htl]
            have hsh := mapIdxFrom_shift
              (fun i a => f (g0 + i / c) (i % c) a) (l.drop c) c 0
            rw [Nat.add_zero] at hsh
            rw [hsh]
            apply mapIdxFrom_congr
            intro i a _
            simp only [Nat.zero_add]
            have h1 : (c + i) / c = i / c + 1 := by
              rw [Nat.add_comm]
              exact Nat.add_div_right i (Nat.pos_of_ne_zero hc)
            have h2 : (c + i) % c = i % c := Nat.add_mod_left c i
            rw [h1, h2]
            congr 1
            omega

/-! ### Flat forms of the execution paths -/

/-- `executeSerial` over transactions with attached environments is the
sequential indexed map of the per-transaction body. -/
theorem executeSerial_attach (txs : List ArcologyTransaction) (es : Nat → TxEnv) :
    executeSerial (attachEnvs txs es)
      = mapIdxFrom (fun i _ => arcologySerialTx (es i) i) 0 txs := by
  unfold executeSerial attachEnvs
  rw [mapIdxFrom_comp]

/-- `executeParallel` flattens to the sequential indexed map of the
per-transaction body, the group index being `i / c` and the in-group
index `i % c`. -/
theorem executeParallel_attach (txs : List ArcologyTransaction) (es : Nat → TxEnv)
    (c : Nat) (hc : c ≠ 0) :
    executeParallel (attachEnvs txs es) c
      = mapIdxFrom (fun i _ => arcologyParallelTx (es i) (i / c) (i % c)) 0 txs := by
  unfold executeParallel createConflictFreeGroups
  rw [chunk_mapIdx_flatten c hc (fun gi ti p => arcologyParallelTx p.2 gi ti)
    (attachEnvs txs es).length (attachEnvs txs es) le_rfl 0]
  unfold attachEnvs
  rw [mapIdxFrom_comp]
  simp only [Nat.zero_add]

/-- `executeParallelTransactions` flattens to the sequential map of
`executeTransaction` over the transactions with their environments; the
async-nonce rewrite of each transaction does not influence its result. -/
theorem executeParallelTransactions_attach (instanceId : String)
    (txs : List EVVMTransaction) (es : Nat → TxEnv) (c : Nat) (hc : c ≠ 0) :
    executeParallelTransactions instanceId (attachEnvs txs es) c
      = mapIdxFrom (fun i tx => executeTransaction instanceId tx (es i)) 0 txs := by
  unfold executeParallelTransactions
  rw [← mapIdxFrom_eq_map
    (fun (_ : Nat) chunk =>
      mapIdxFrom (fun index p => executeTransaction instanceId (withAsyncNonce p.1 index) p.2)
        0 chunk)
    (fun chunk =>
      mapIdxFrom (fun index p => executeTransaction instanceId (withAsyncNonce p.1 index) p.2)
        0 chunk)
    (chunkArray (attachEnvs txs es) c) (fun _ _ => rfl) 0]
  rw [chunk_mapIdx_flatten c hc
    (fun _ ti p => executeTransaction instanceId (withAsyncNonce p.1 ti) p.2)
    (attachEnvs txs es).length (attachEnvs txs es) le_rfl 0]
  unfold attachEnvs
  rw [mapIdxFrom_comp]
  apply mapIdxFrom_congr
  intro i a _
  rfl

/-! ### Counting helpers -/

theorem length_filter_add_length_filter_not (l : List α) (p : α → Bool) :
    (l.filter p).length + (l.filter (fun a => !p a)).length = l.length := by
  induction l with
  | nil => rfl
  | cons a l ih =>
      by_cases h : p a = true <;> simp [List.filter, h, Bool.not_eq_true] <;> omega

theorem length_filter_map (p : β → Bool) (g : α → β) (l : List α) :
    ((l.map g).filter p).length = (l.filter (fun a => p (g a))).length := by
  induction l with
  | nil => rfl
  | cons a l ih =>
      by_cases h : p (g a) = true <;> simp [List.filter, h, ih]

theorem sum_map_one (l : List α) : (l.map (fun _ => (1 : Nat))).sum = l.length := by
  induction l with
  | nil => rfl
  | cons a l ih => simp [ih, Nat.add_comm]

theorem foldl_pair_add (cnt gas : α → Nat) (l : List α) : ∀ s : Nat × Nat,
    l.foldl (fun a b => (a.1 + cnt b, a.2 + gas b)) s
      = (s.1 + (l.map cnt).sum, s.2 + (l.map gas).sum) := by
  induction l with
  | nil => intro s; simp
  | cons a l ih =>
      intro s
      simp only [List.foldl_cons, List.map_cons, List.sum_cons]
      rw [ih]
      simp only [Prod.mk.injEq]
      constructor <;> omega

theorem foldl_fun_congr (f g : β → α → β) (l : List α) (s : β)
    (h : ∀ acc b, f acc b = g acc b) : l.foldl f s = l.foldl g s := by
  induction l generalizing s with
  | nil => rfl
  | cons a l ih => simp only [List.foldl_cons, h]; exact ih _

/-- The batch sizes of the parallel loop add up to the transaction
count. -/
theorem sum_batches (bs : Nat) (hbs : bs ≠ 0) (n : Nat) :
    ((List.range ((n + bs - 1) / bs)).map (fun b => min bs (n - b * bs))).sum = n := by
  induction n using Nat.strong_induction_on with
  | _ n ih =>
    rcases Nat.eq_zero_or_pos n with h0 | hpos
    · subst h0
      have h : (0 + bs - 1) / bs = 0 := Nat.div_eq_of_lt (by omega)
      rw [h]
      simp
    · by_cases hnb : n ≤ bs
      · have hdiv : (n + bs - 1) / bs = 1 := by
          apply Nat.div_eq_of_lt_le <;> omega
        rw [hdiv]
        have h1 : List.range 1 = [0] := rfl
        simp [h1, Nat.min_eq_right hnb]
      · push_neg at hnb
        have hm : (n + bs - 1) / bs = ((n - bs) + bs - 1) / bs + 1 := by
          have h1 : n + bs - 1 = ((n - bs) + bs - 1) + bs := by omega
          rw [h1, Nat.add_div_right _ (Nat.pos_of_ne_zero hbs)]
        rw [hm, List.range_succ_eq_map]
        simp only [List.map_cons, List.sum_cons, List.map_map, Nat.zero_mul, Nat.sub_zero]
        have hcongr : (List.range ((n - bs + bs - 1) / bs)).map
              ((fun b => min bs (n - b * bs)) ∘ Nat.succ)
            = (List.range ((n - bs + bs - 1) / bs)).map
              (fun b => min bs ((n - bs) - b * bs)) := by
          apply List.map_congr_left
          intro b _
          simp only [Function.comp_apply]
          have h2 : Nat.succ b * bs = bs + b * bs := by
            rw [Nat.succ_mul]
            omega
          rw [h2]
          congr 1
          omega
        rw [hcongr, ih (n - bs) (by omega)]
        have h3 : min bs n = bs := Nat.min_eq_left (Nat.le_of_lt hnb)
        rw [h3]
        omega

/-- The serial loop succeeds on every transaction. -/
theorem serialLoop_fst (env : Nat → TxEnv) (txCount : Nat) :
    (serialLoop env txCount).1 = txCount := by
  unfold serialLoop
  rw [foldl_pair_add (fun _ => 1)
    (fun i => 21000 + jsFloorMul ((env i).rand 1) 1000) (List.range txCount) (0, 0)]
  simp [sum_map_one]

/-- The async loop succeeds on every transaction. -/
theorem asyncLoop_fst (env : Nat → TxEnv) (txCount : Nat) :
    (asyncLoop env txCount).1 = txCount := by
  unfold asyncLoop
  rw [foldl_pair_add (fun _ => 1) (fun i => simulateAsyncTx (env i)) (List.range txCount) (0, 0)]
  simp [sum_map_one]

/-- The parallel loop also succeeds on every transaction (for a nonzero
concurrency; the plugin's `EVVMConfig` constructor makes any falsy
concurrency fall back to `4`). -/
theorem parallelLoop_fst (env : Nat → TxEnv) (txCount cc : Nat) (hcc : cc ≠ 0) :
    (parallelLoop env txCount cc).1 = txCount := by
  unfold parallelLoop
  rcases Nat.eq_zero_or_pos txCount with h0 | hpos
  · subst h0
    simp
  · have hbs : min txCount cc ≠ 0 := by omega
    rw [foldl_fun_congr _
      (fun (acc : Nat × Nat) batch =>
        (acc.1 + min (min txCount cc) (txCount - batch * min txCount cc),
         acc.2 + ((List.range (min (min txCount cc) (txCount - batch * min txCount cc))).map
           (fun i => simulateParallelTx (env (batch * min txCount cc + i)))).sum))
      _ _ ?_]
    · rw [foldl_pair_add]
      simp only [Nat.zero_add]
      exact sum_batches (min txCount cc) hbs txCount
    · intro acc b
      rw [foldl_pair_add (fun _ => 1)
        (fun i => simulateParallelTx (env (b * min txCount cc + i))) _ acc]
      simp [sum_map_one]

/-! ### String and contract helpers -/

theorem append_ne_empty_left (a b : String) (ha : a ≠ "") : a ++ b ≠ "" := by
  intro h
  apply ha
  have hd := congrArg String.data h
  rw [String.data_append] at hd
  have h0 : a.data = [] := (List.append_eq_nil.mp hd).1
  exact String.ext h0

theorem freshInstanceId_ne_empty (e : TxEnv) : freshInstanceId e ≠ "" := by
  unfold freshInstanceId
  exact append_ne_empty_left _ _
    (append_ne_empty_left _ _ (append_ne_empty_left "evvm-" _ (by decide)))

/-- The increment loop of `Counter.batchIncrement` adds `k` in total and
reverts exactly on overflow (for any reachable state, `c < 2^256`). -/
theorem incrLoop_eq : ∀ (k c : Nat), c < U256 →
    incrLoop c k = if c + k < U256 then some (c + k) else none := by
  intro k
  induction k with
  | zero => intro c hc; simp [incrLoop, hc]
  | succ k ih =>
      intro c hc
      simp only [incrLoop, checkedAdd]
      by_cases h1 : c + 1 < U256
      · rw [if_pos h1]
        simp only [Option.some_bind]
        rw [ih (c + 1) h1]
        have h2 : c + 1 + k = c + (k + 1) := by omega
        rw [h2]
      · rw [if_neg h1]
        simp only [Option.none_bind]
        rw [if_neg (by omega)]

/-- Closed form of `Counter.batchIncrement`. -/
theorem counter_batchIncrement_eq (s : CounterState) (t iterations : Nat)
    (hs : s.count < U256) :
    Counter.batchIncrement s t iterations
      = if iterations = 0 ∨ 100 < iterations ∨ U256 ≤ s.count + iterations then none
        else some { count := s.count + iterations, lastIncrement := t, owner := s.owner } := by
  unfold Counter.batchIncrement
  by_cases h0 : iterations = 0
  · simp [h0]
  · by_cases h100 : 100 < iterations
    · simp [h0, h100]
    · rw [if_neg h0, if_neg h100, incrLoop_eq iterations s.count hs]
      by_cases hov : s.count + iterations < U256
      · rw [if_pos hov, if_neg (by omega)]
        rfl
      · rw [if_neg hov, if_pos (by omega)]
        rfl

/-- Closed form of `ParallelCounter.batchIncrement`. -/
theorem pcounter_batchIncrement_eq (s : PCounterState) (t iterations : Nat) :
    ParallelCounter.batchIncrement s t iterations
      = if iterations = 0 ∨ 100 < iterations ∨ U256 ≤ s.count + iterations
            ∨ U256 ≤ s.totalIncrements + iterations then none
        else some { count := s.count + iterations, lastIncrement := t,
                    totalIncrements := s.totalIncrements + iterations, owner := s.owner } := by
  unfold ParallelCounter.batchIncrement checkedAdd
  by_cases h0 : iterations = 0
  · simp [h0]
  · by_cases h100 : 100 < iterations
    · simp [h0, h100]
    · rw [if_neg h0, if_neg h100]
      by_cases hc : s.count + iterations < U256
      · rw [if_pos hc]
        simp only [Option.some_bind]
        by_cases ht : s.totalIncrements + iterations < U256
        · rw [if_pos ht, if_neg (by omega)]
          rfl
        · rw [if_neg ht, if_pos (by omega)]
          rfl
      · rw [if_neg hc]
        simp only [Option.none_bind]
        rw [if_pos (by omega)]

theorem U256_pos : 0 < U256 := by
  unfold U256
  positivity

/-! ### Claim theorems -/

/-- C4: `EVVMPlugin.initInstance` always returns status `"initialized"`
with an empty `contractAddress`, and `EVVMPlugin.deployContract` succeeds
on every input instance record — its status field is never inspected —
returning status `"deployed"` and a non-empty (`"0x"`-prefixed)
`contractAddress`. -/
theorem initInstance_deployContract_status (e e2 : TxEnv)
    (name contractName : String) (inst : EVVMInstance) :
    (initInstance e name).status = "initialized"
    ∧ (initInstance e name).contractAddress = ""
    ∧ (deployContract e2 inst contractName).status = "deployed"
    ∧ (deployContract e2 inst contractName).contractAddress ≠ "" := by
  have haddr : ("0x" ++ jsRandomDigits 16 (e2.rand 1) 40) ≠ "" :=
    append_ne_empty_left _ _ (by decide)
  refine ⟨?_, ?_, ?_, ?_⟩
  · simp [initInstance, EVVMInstance.create, jsOrString]
  · simp [initInstance, EVVMInstance.create, jsOrString]
  · simp [deployContract, EVVMInstance.create, jsOrString]
  · simp [deployContract, EVVMInstance.create, jsOrString, haddr]

/-- C9 counterexample: for the input instance whose `id` is the empty
string (falsy in JS), `deployContract` does not preserve the `id` field —
the `EVVMInstance` constructor replaces it by a freshly generated id. -/
theorem deployContract_empty_id_changes_id :
    (deployContract txEnvA emptyIdInstance "Counter").id ≠ emptyIdInstance.id := by
  have h1 : (deployContract txEnvA emptyIdInstance "Counter").id = freshInstanceId txEnvA := by
    simp [deployContract, EVVMInstance.create, jsOrString, emptyIdInstance]
  rw [h1]
  have h2 : emptyIdInstance.id = "" := rfl
  rw [h2]
  exact freshInstanceId_ne_empty txEnvA

/-- C9 (amended): `deployContract` preserves the `id`, `name` and
`createdAt` fields of every input instance whose `id`, `name` and
`createdAt` are non-empty strings (empty strings are falsy in JS and are
replaced by the constructor defaults). -/
theorem deployContract_frame (e : TxEnv) (inst : EVVMInstance) (contractName : String)
    (hid : inst.id ≠ "") (hname : inst.name ≠ "") (hcreated : inst.createdAt ≠ "") :
    (deployContract e inst contractName).id = inst.id
    ∧ (deployContract e inst contractName).name = inst.name
    ∧ (deployContract e inst contractName).createdAt = inst.createdAt := by
  simp [deployContract, EVVMInstance.create, jsOrString, hid, hname, hcreated]

/-- Witness for the amended C9 theorem at a concrete instance. -/
theorem deployContract_frame_witness :
    sampleInstance.id ≠ ""
    ∧ (deployContract txEnvA sampleInstance "Counter").id = sampleInstance.id :=
  ⟨by decide,
   (deployContract_frame txEnvA sampleInstance "Counter"
     (by decide) (by decide) (by decide)).1⟩

/-- C6 counterexample: with `iterations = 1 ∈ [1, 100]`, both
`batchIncrement` functions revert when the counter (or total) is at
`2^256 - 1`, because Solidity 0.8 checked arithmetic overflows — so the
claimed "reverts exactly when iterations = 0 or iterations > 100" is
false. -/
theorem batchIncrement_overflow_reverts :
    (1 : Nat) ≠ 0 ∧ (1 : Nat) ≤ 100
    ∧ Counter.batchIncrement { count := U256 - 1, lastIncrement := 0, owner := 7 } 5 1 = none
    ∧ ParallelCounter.batchIncrement
        { count := U256 - 1, lastIncrement := 0, totalIncrements := 0, owner := 7 } 5 1
      = none := by
  have hU := U256_pos
  refine ⟨by omega, by omega, ?_, ?_⟩
  · rw [counter_batchIncrement_eq _ 5 1 (by show U256 - 1 < U256; omega), if_pos]
    right
    right
    show U256 ≤ U256 - 1 + 1
    omega
  · rw [pcounter_batchIncrement_eq _ 5 1, if_pos]
    right
    right
    left
    show U256 ≤ U256 - 1 + 1
    omega

/-- C6 (amended): for a reachable state (stored fields below `2^256`),
`batchIncrement` of both contracts reverts exactly when `iterations = 0`,
`iterations > 100`, or the checked `uint256` addition overflows; for
`iterations ∈ [1, 100]` without overflow the call succeeds, adds
`iterations` to the count (and, for `ParallelCounter`, to
`totalIncrements`), sets `lastIncrement` to the block timestamp, and
leaves the owner unchanged. -/
theorem batchIncrement_characterization (s : CounterState) (ps : PCounterState)
    (t iterations : Nat) (hs : s.count < U256) :
    (Counter.batchIncrement s t iterations = none
        ↔ iterations = 0 ∨ 100 < iterations ∨ U256 ≤ s.count + iterations)
    ∧ (1 ≤ iterations → iterations ≤ 100 → s.count + iterations < U256 →
        Counter.batchIncrement s t iterations
          = some { count := s.count + iterations, lastIncrement := t, owner := s.owner })
    ∧ (ParallelCounter.batchIncrement ps t iterations = none
        ↔ iterations = 0 ∨ 100 < iterations ∨ U256 ≤ ps.count + iterations
            ∨ U256 ≤ ps.totalIncrements + iterations)
    ∧ (1 ≤ iterations → iterations ≤ 100 → ps.count + iterations < U256 →
        ps.totalIncrements + iterations < U256 →
        ParallelCounter.batchIncrement ps t iterations
          = some { count := ps.count + iterations, lastIncrement := t,
                   totalIncrements := ps.totalIncrements + iterations, owner := ps.owner }) := by
  rw [counter_batchIncrement_eq s t iterations hs, pcounter_batchIncrement_eq ps t iterations]
  refine ⟨?_, ?_, ?_, ?_⟩
  · by_cases h : iterations = 0 ∨ 100 < iterations ∨ U256 ≤ s.count + iterations
    · simp [h]
    · simp [h]
  · intro h1 h2 h3
    rw [if_neg (by omega)]
  · by_cases h : iterations = 0 ∨ 100 < iterations ∨ U256 ≤ ps.count + iterations
        ∨ U256 ≤ ps.totalIncrements + iterations
    · simp [h]
    · simp [h]
  · intro h1 h2 h3 h4
    rw [if_neg (by omega)]

/-- Witness for the amended C6 theorem at a concrete state. -/
theorem batchIncrement_characterization_witness :
    (0 : Nat) < U256
    ∧ Counter.batchIncrement { count := 0, lastIncrement := 0, owner := 7 } 5 3
      = some { count := 3, lastIncrement := 5, owner := 7 } := by
  have hU := U256_pos
  refine ⟨hU, ?_⟩
  have h := (batchIncrement_characterization
    { count := 0, lastIncrement := 0, owner := 7 }
    { count := 0, lastIncrement := 0, totalIncrements := 0, owner := 7 }
    5 3 (by show (0 : Nat) < U256; omega)).2.1
    (by omega) (by omega) (by show (0 : Nat) + 3 < U256; unfold U256; norm_num)
  simpa using h

/-- C5: the `deploy` and `benchmark` CLI operations throw
`Instance <id> not found` exactly when no `instances/<id>.json` file
exists, and in that case the on-disk state is unchanged. -/
theorem cli_missing_instance (e : TxEnv) (e1 e2 e3 : RunEnv) (now : Int) (fs : FSState)
    (instanceId contract mode : String) (txCount : Nat) :
    ((deployAction e fs instanceId contract).out
        = Except.error ("Instance " ++ instanceId ++ " not found")
      ↔ lookupInstance fs instanceId = none)
    ∧ (lookupInstance fs instanceId = none →
        (deployAction e fs instanceId contract).fs = fs)
    ∧ ((benchmarkAction e1 e2 e3 now fs instanceId mode txCount).out
        = Except.error ("Instance " ++ instanceId ++ " not found")
      ↔ lookupInstance fs instanceId = none)
    ∧ (lookupInstance fs instanceId = none →
        (benchmarkAction e1 e2 e3 now fs instanceId mode txCount).fs = fs) := by
  rcases h : lookupInstance fs instanceId with _ | inst
  · simp [deployAction, benchmarkAction, h]
  · simp [deployAction, benchmarkAction, h]

/-- Witness for C5: on an empty store the deploy and benchmark commands
report the missing instance and leave the state unchanged. -/
theorem cli_missing_instance_witness :
    lookupInstance emptyFS "ghost" = none
    ∧ (deployAction txEnvA emptyFS "ghost" "Counter").fs = emptyFS
    ∧ (benchmarkAction runEnvA runEnvA runEnvA 0 emptyFS "ghost" "all" 3).fs = emptyFS :=
  ⟨rfl,
   (cli_missing_instance txEnvA runEnvA runEnvA runEnvA 0 emptyFS "ghost" "Counter" "all" 3).2.1
     rfl,
   (cli_missing_instance txEnvA runEnvA runEnvA runEnvA 0 emptyFS "ghost" "all" "all" 3).2.2.2
     rfl⟩

/-- C7: the external CLI surface is exactly the five commands `init`,
`deploy`, `benchmark`, `list`, `demo`, present both as commander commands
and as (`evvm:`-prefixed) hardhat tasks, and every file any of them reads
or writes is an `instances/<id>.json` or a
`benchmark-results/<id>-<ts>.json` file. -/
theorem cli_surface_inventory (e d1 d2 : TxEnv) (e1 e2 e3 b1 b2 b3 : RunEnv)
    (now : Int) (fs : FSState) (name instanceId contract mode : String) (txCount : Nat) :
    hardhatTaskNames = commanderCommands.map (fun c => "evvm:" ++ c)
    ∧ commanderCommands = ["init", "deploy", "benchmark", "list", "demo"]
    ∧ (∀ p ∈ (initAction e fs name).reads ++ (initAction e fs name).writes,
        isInstancePath p ∨ isResultsPath p)
    ∧ (∀ p ∈ (deployAction e fs instanceId contract).reads
          ++ (deployAction e fs instanceId contract).writes,
        isInstancePath p ∨ isResultsPath p)
    ∧ (∀ p ∈ (benchmarkAction e1 e2 e3 now fs instanceId mode txCount).reads
          ++ (benchmarkAction e1 e2 e3 now fs instanceId mode txCount).writes,
        isInstancePath p ∨ isResultsPath p)
    ∧ (∀ p ∈ (listAction fs).reads ++ (listAction fs).writes,
        isInstancePath p ∨ isResultsPath p)
    ∧ (∀ p ∈ (demoAction d1 d2 b1 b2 b3 fs).reads ++ (demoAction d1 d2 b1 b2 b3 fs).writes,
        isInstancePath p ∨ isResultsPath p) := by
  refine ⟨by decide, by decide, ?_, ?_, ?_, ?_, ?_⟩
  · intro p hp
    simp only [initAction, List.nil_append, List.mem_singleton] at hp
    exact Or.inl ⟨(initInstance e name).id, hp⟩
  · intro p hp
    rcases h : lookupInstance fs instanceId with _ | inst
    · simp only [deployAction, h, List.append_nil, List.mem_singleton] at hp
      exact Or.inl ⟨instanceId, hp⟩
    · simp only [deployAction, h, List.mem_append, List.mem_singleton] at hp
      rcases hp with hp | hp <;> exact Or.inl ⟨instanceId, hp⟩
  · intro p hp
    rcases h : lookupInstance fs instanceId with _ | inst
    · simp only [benchmarkAction, h, List.append_nil, List.mem_singleton] at hp
      exact Or.inl ⟨instanceId, hp⟩
    · simp only [benchmarkAction, h, List.mem_append, List.mem_singleton] at hp
      rcases hp with hp | hp
      · exact Or.inl ⟨instanceId, hp⟩
      · exact Or.inr ⟨inst.id, now, hp⟩
  · intro p hp
    simp only [listAction, List.append_nil, List.mem_map] at hp
    obtain ⟨q, _, hq⟩ := hp
    exact Or.inl ⟨q.1, hq.symm⟩
  · intro p hp
    simp only [demoAction, List.nil_append] at hp
    exact absurd hp (List.not_mem_nil p)

/-- Witness for C7 at a concrete command invocation. -/
theorem cli_surface_inventory_witness :
    instancePath (initInstance txEnvA "w").id
        ∈ (initAction txEnvA emptyFS "w").reads ++ (initAction txEnvA emptyFS "w").writes
    ∧ (isInstancePath (instancePath (initInstance txEnvA "w").id)
        ∨ isResultsPath (instancePath (initInstance txEnvA "w").id)) := by
  have hmem : instancePath (initInstance txEnvA "w").id
      ∈ (initAction txEnvA emptyFS "w").reads ++ (initAction txEnvA emptyFS "w").writes := by
    simp [initAction]
  exact ⟨hmem,
    (cli_surface_inventory txEnvA txEnvA txEnvA runEnvA runEnvA runEnvA runEnvA runEnvA
      runEnvA 0 emptyFS "w" "x" "Counter" "all" 3).2.2.1 _ hmem⟩

/-- C1: for every transaction list and concurrency ≥ 1, both parallel
execution paths return exactly one result per input transaction, in input
order: `ArcologyClient.executeParallel` equals the sequential indexed map
of its per-transaction closure (group index `i / c`, in-group index
`i % c`), and `EVVMClient.executeParallelTransactions` equals the
sequential map of `executeTransaction` over the transactions — the
chunked `Promise.all` structure adds nothing beyond sequential
iteration. -/
theorem parallel_refines_sequential (txs : List ArcologyTransaction)
    (etxs : List EVVMTransaction) (es fs : Nat → TxEnv) (instanceId : String)
    (c : Nat) (hc : 1 ≤ c) :
    executeParallel (attachEnvs txs es) c
        = mapIdxFrom (fun i _ => arcologyParallelTx (es i) (i / c) (i % c)) 0 txs
    ∧ (executeParallel (attachEnvs txs es) c).length = txs.length
    ∧ executeParallelTransactions instanceId (attachEnvs etxs fs) c
        = mapIdxFrom (fun i tx => executeTransaction instanceId tx (fs i)) 0 etxs
    ∧ (executeParallelTransactions instanceId (attachEnvs etxs fs) c).length = etxs.length := by
  have hc0 : c ≠ 0 := by omega
  refine ⟨executeParallel_attach txs es c hc0, ?_,
    executeParallelTransactions_attach instanceId etxs fs c hc0, ?_⟩
  · rw [executeParallel_attach txs es c hc0, mapIdxFrom_length]
  · rw [executeParallelTransactions_attach instanceId etxs fs c hc0, mapIdxFrom_length]

/-- Witness for C1 at a concrete three-transaction list with
concurrency 2. -/
theorem parallel_refines_sequential_witness :
    (1 : Nat) ≤ 2
    ∧ executeParallel
        (attachEnvs [sampleArcologyTx, sampleArcologyTx, sampleArcologyTx] (fun _ => txEnvA)) 2
      = mapIdxFrom (fun i _ => arcologyParallelTx ((fun _ => txEnvA) i) (i / 2) (i % 2)) 0
          [sampleArcologyTx, sampleArcologyTx, sampleArcologyTx] :=
  ⟨by omega,
   (parallel_refines_sequential [sampleArcologyTx, sampleArcologyTx, sampleArcologyTx]
     [sampleEVVMTx] (fun _ => txEnvA) (fun _ => txEnvA) "mock-instance" 2 (by omega)).1⟩

/-- In every recognised mode all simulated transactions succeed; in an
unrecognised mode no loop runs.  Either way the count never exceeds the
requested transaction count. -/
theorem runBenchmark_succ (env : RunEnv) (inst : EVVMInstance) (mode : String)
    (n cc : Nat) (hcc : cc ≠ 0) :
    (runBenchmark env inst mode n cc).successfulTransactions ≤ n
    ∧ ((mode = "serial" ∨ mode = "parallel" ∨ mode = "evvm-async") →
        (runBenchmark env inst mode n cc).successfulTransactions = n) := by
  by_cases h1 : mode = "serial"
  · simp [runBenchmark, h1, serialLoop_fst]
  · by_cases h2 : mode = "parallel"
    · simp [runBenchmark, h1, h2, parallelLoop_fst _ _ _ hcc]
    · by_cases h3 : mode = "evvm-async"
      · simp [runBenchmark, h1, h2, h3, asyncLoop_fst]
      · simp [runBenchmark, h1, h2, h3]

theorem executeSerial_length (l : List (ArcologyTransaction × TxEnv)) :
    (executeSerial l).length = l.length := by
  unfold executeSerial
  rw [mapIdxFrom_length]

/-- C8: every `BenchmarkResult` satisfies
`successfulTransactions + failedTransactions = totalTransactions`, and
`totalTransactions` is the requested count — for `EVVMPlugin.runBenchmark`
in every mode (the plugin's concurrency is never 0: the config default is
4), and for `ArcologyClient.calculateBenchmarkResult` on the serial and
parallel execution results (one result per input transaction). -/
theorem benchmark_count_invariant (env : RunEnv) (inst : EVVMInstance) (mode : String)
    (n cc : Nat) (hcc : 1 ≤ cc) (es : Nat → TxEnv) (txs : List ArcologyTransaction)
    (c : Nat) (hc : 1 ≤ c) (now1 now2 : Int) :
    (runBenchmark env inst mode n cc).successfulTransactions
        + (runBenchmark env inst mode n cc).failedTransactions = n
    ∧ (runBenchmark env inst mode n cc).totalTransactions = n
    ∧ (calculateBenchmarkResult "serial" (executeSerial (attachEnvs txs es))
          txs.length now1).successfulTransactions
        + (calculateBenchmarkResult "serial" (executeSerial (attachEnvs txs es))
            txs.length now1).failedTransactions
      = (calculateBenchmarkResult "serial" (executeSerial (attachEnvs txs es))
          txs.length now1).totalTransactions
    ∧ (calculateBenchmarkResult "serial" (executeSerial (attachEnvs txs es))
        txs.length now1).totalTransactions = txs.length
    ∧ (calculateBenchmarkResult "parallel" (executeParallel (attachEnvs txs es) c)
          txs.length now2).successfulTransactions
        + (calculateBenchmarkResult "parallel" (executeParallel (attachEnvs txs es) c)
            txs.length now2).failedTransactions
      = (calculateBenchmarkResult "parallel" (executeParallel (attachEnvs txs es) c)
          txs.length now2).totalTransactions
    ∧ (calculateBenchmarkResult "parallel" (executeParallel (attachEnvs txs es) c)
        txs.length now2).totalTransactions = txs.length := by
  have hle := (runBenchmark_succ env inst mode n cc (by omega)).1
  have hserial : (executeSerial (attachEnvs txs es)).length = txs.length := by
    rw [executeSerial_length]
    unfold attachEnvs
    rw [mapIdxFrom_length]
  have hpar : (executeParallel (attachEnvs txs es) c).length = txs.length := by
    rw [executeParallel_attach txs es c (by omega), mapIdxFrom_length]
  refine ⟨?_, rfl, ?_, rfl, ?_, rfl⟩
  · show (runBenchmark env inst mode n cc).successfulTransactions
      + (n - (runBenchmark env inst mode n cc).successfulTransactions) = n
    omega
  · show ((executeSerial (attachEnvs txs es)).filter (fun r => r.success)).length
        + ((executeSerial (attachEnvs txs es)).filter (fun r => !r.success)).length
      = txs.length
    rw [length_filter_add_length_filter_not, hserial]
  · show ((executeParallel (attachEnvs txs es) c).filter (fun r => r.success)).length
        + ((executeParallel (attachEnvs txs es) c).filter (fun r => !r.success)).length
      = txs.length
    rw [length_filter_add_length_filter_not, hpar]

/-- Witness for C8 at a concrete run. -/
theorem benchmark_count_invariant_witness :
    (1 : Nat) ≤ 4
    ∧ (runBenchmark runEnvA sampleInstance "parallel" 5 4).successfulTransactions
        + (runBenchmark runEnvA sampleInstance "parallel" 5 4).failedTransactions = 5 :=
  ⟨by omega,
   (benchmark_count_invariant runEnvA sampleInstance "parallel" 5 4 (by omega)
     (fun _ => txEnvA) [sampleArcologyTx] 2 (by omega) 0 0).1⟩

/-! ### Observational congruence: only `rand` and `time` matter -/

theorem obs_rand (e1 e2 : TxEnv) (h : e1.obs = e2.obs) : e1.rand = e2.rand :=
  congrArg Prod.fst h

theorem obs_time (e1 e2 : TxEnv) (h : e1.obs = e2.obs) : e1.time = e2.time :=
  congrArg Prod.snd h

theorem arcologySerialTx_obs (e1 e2 : TxEnv) (h : e1.obs = e2.obs) (i : Nat) :
    arcologySerialTx e1 i = arcologySerialTx e2 i := by
  unfold arcologySerialTx
  rw [obs_rand e1 e2 h, obs_time e1 e2 h]

theorem arcologyParallelTx_obs (e1 e2 : TxEnv) (h : e1.obs = e2.obs) (gi ti : Nat) :
    arcologyParallelTx e1 gi ti = arcologyParallelTx e2 gi ti := by
  unfold arcologyParallelTx
  rw [obs_rand e1 e2 h, obs_time e1 e2 h]

theorem simulateParallelTx_obs (e1 e2 : TxEnv) (h : e1.obs = e2.obs) :
    simulateParallelTx e1 = simulateParallelTx e2 := by
  unfold simulateParallelTx
  rw [obs_rand e1 e2 h]

theorem simulateAsyncTx_obs (e1 e2 : TxEnv) (h : e1.obs = e2.obs) :
    simulateAsyncTx e1 = simulateAsyncTx e2 := by
  unfold simulateAsyncTx
  rw [obs_rand e1 e2 h]

theorem serialLoop_obs (es1 es2 : Nat → TxEnv) (h : ∀ i, (es1 i).obs = (es2 i).obs)
    (n : Nat) : serialLoop es1 n = serialLoop es2 n := by
  unfold serialLoop
  apply foldl_fun_congr
  intro acc i
  rw [obs_rand _ _ (h i)]

theorem parallelLoop_obs (es1 es2 : Nat → TxEnv) (h : ∀ i, (es1 i).obs = (es2 i).obs)
    (n cc : Nat) : parallelLoop es1 n cc = parallelLoop es2 n cc := by
  unfold parallelLoop
  apply foldl_fun_congr
  intro acc b
  apply foldl_fun_congr
  intro a i
  rw [simulateParallelTx_obs _ _ (h (b * min n cc + i))]

theorem asyncLoop_obs (es1 es2 : Nat → TxEnv) (h : ∀ i, (es1 i).obs = (es2 i).obs)
    (n : Nat) : asyncLoop es1 n = asyncLoop es2 n := by
  unfold asyncLoop
  apply foldl_fun_congr
  intro acc i
  rw [simulateAsyncTx_obs _ _ (h i)]

theorem runBenchmark_obs (g1 g2 : RunEnv) (hg : g1.glob.obs = g2.glob.obs)
    (hp : ∀ i, (g1.perTx i).obs = (g2.perTx i).obs) (inst : EVVMInstance)
    (mode : String) (n cc : Nat) :
    runBenchmark g1 inst mode n cc = runBenchmark g2 inst mode n cc := by
  unfold runBenchmark
  rw [obs_time _ _ hg, serialLoop_obs _ _ hp, parallelLoop_obs _ _ hp, asyncLoop_obs _ _ hp]

/-- C2: with `Math.random()` and the clock as explicit input streams,
`EVVMPlugin.runBenchmark` and `ArcologyClient.executeSerial` /
`executeParallel` are deterministic functions of those streams and their
arguments: two environments agreeing on the random and clock streams —
whatever their external/network streams — produce identical results, in
every field. -/
theorem benchmark_noninterference (g1 g2 : RunEnv) (es1 es2 : Nat → TxEnv)
    (txs : List ArcologyTransaction) (inst : EVVMInstance) (mode : String)
    (n cc c : Nat) (hg : g1.glob.obs = g2.glob.obs)
    (hp : ∀ i, (g1.perTx i).obs = (g2.perTx i).obs)
    (he : ∀ i, (es1 i).obs = (es2 i).obs) :
    runBenchmark g1 inst mode n cc = runBenchmark g2 inst mode n cc
    ∧ executeSerial (attachEnvs txs es1) = executeSerial (attachEnvs txs es2)
    ∧ executeParallel (attachEnvs txs es1) c = executeParallel (attachEnvs txs es2) c := by
  refine ⟨runBenchmark_obs g1 g2 hg hp inst mode n cc, ?_, ?_⟩
  · rw [executeSerial_attach, executeSerial_attach]
    apply mapIdxFrom_congr
    intro i a _
    exact arcologySerialTx_obs _ _ (he (0 + i)) (0 + i)
  · rcases Nat.eq_zero_or_pos c with h0 | hpos
    · subst h0
      unfold executeParallel createConflictFreeGroups
      rw [chunkArray_zero, chunkArray_zero]
    · rw [executeParallel_attach txs es1 c (by omega),
        executeParallel_attach txs es2 c (by omega)]
      apply mapIdxFrom_congr
      intro i a _
      exact arcologyParallelTx_obs _ _ (he (0 + i)) ((0 + i) / c) ((0 + i) % c)

/-- Witness for C2: two concrete environments with identical random and
clock streams but different external streams give identical benchmark
results. -/
theorem benchmark_noninterference_witness :
    runEnvA.glob.obs = runEnvB.glob.obs
    ∧ runBenchmark runEnvA sampleInstance "serial" 3 4
        = runBenchmark runEnvB sampleInstance "serial" 3 4 :=
  ⟨rfl,
   (benchmark_noninterference runEnvA runEnvB (fun _ => txEnvA) (fun _ => txEnvB)
     [sampleArcologyTx] sampleInstance "serial" 3 4 2 rfl (fun _ => rfl) (fun _ => rfl)).1⟩

/-! ### Failure thresholds -/

theorem bool_not_gt (x θ : Rat) : (!decide (x > θ)) = decide (x ≤ θ) := by
  rcases le_or_lt x θ with h | h
  · simp [h, not_lt.mpr h]
  · simp [h, not_le.mpr h]

theorem arcologySerialTx_success (e : TxEnv) (i : Nat) :
    (arcologySerialTx e i).success = decide (e.rand 1 > 1/20) := by
  unfold arcologySerialTx
  by_cases h : e.rand 1 > 1/20
  · rw [if_pos h]
    simpa using h
  · rw [if_neg h]
    simpa using not_lt.mp h

theorem arcologyParallelTx_success (e : TxEnv) (gi ti : Nat) :
    (arcologyParallelTx e gi ti).success = decide (e.rand 1 > 1/100) := by
  unfold arcologyParallelTx
  by_cases h : e.rand 1 > 1/100
  · rw [if_pos h]
    simpa using h
  · rw [if_neg h]
    simpa using not_lt.mp h

theorem calcResult_errors_length (mode : String) (rs : List ArcologyExecutionResult)
    (n : Nat) (now : Int) :
    (calculateBenchmarkResult mode rs n now).errors.length
      = (calculateBenchmarkResult mode rs n now).failedTransactions := by
  simp [calculateBenchmarkResult]

theorem calc_serial_failed (es : Nat → TxEnv) (txs : List ArcologyTransaction) (now : Int) :
    (calculateBenchmarkResult "serial" (executeSerial (attachEnvs txs es))
        txs.length now).failedTransactions
      = ((List.range txs.length).filter (fun i => decide ((es i).rand 1 ≤ 1/20))).length := by
  show ((executeSerial (attachEnvs txs es)).filter (fun r => !r.success)).length = _
  rw [executeSerial_attach, mapIdxFrom_range (fun i => arcologySerialTx (es i) i) txs 0,
    length_filter_map]
  refine congrArg List.length (List.filter_congr ?_)
  intro j _
  rw [Nat.zero_add, arcologySerialTx_success, bool_not_gt]

theorem calc_parallel_failed (es : Nat → TxEnv) (txs : List ArcologyTransaction)
    (c : Nat) (hc : c ≠ 0) (now : Int) :
    (calculateBenchmarkResult "parallel" (executeParallel (attachEnvs txs es) c)
        txs.length now).failedTransactions
      = ((List.range txs.length).filter (fun i => decide ((es i).rand 1 ≤ 1/100))).length := by
  show ((executeParallel (attachEnvs txs es) c).filter (fun r => !r.success)).length = _
  rw [executeParallel_attach txs es c hc,
    mapIdxFrom_range (fun i => arcologyParallelTx (es i) (i / c) (i % c)) txs 0,
    length_filter_map]
  refine congrArg List.length (List.filter_congr ?_)
  intro j _
  rw [Nat.zero_add, arcologyParallelTx_success, bool_not_gt]

theorem runBenchmark_no_failures (env : RunEnv) (inst : EVVMInstance) (mode : String)
    (n cc : Nat) (hcc : cc ≠ 0)
    (hm : mode = "serial" ∨ mode = "parallel" ∨ mode = "evvm-async") :
    (runBenchmark env inst mode n cc).failedTransactions = 0
    ∧ (runBenchmark env inst mode n cc).errors = [] := by
  have h := (runBenchmark_succ env inst mode n cc hcc).2 hm
  constructor
  · have hrfl : (runBenchmark env inst mode n cc).failedTransactions
        = n - (runBenchmark env inst mode n cc).successfulTransactions := rfl
    rw [hrfl, h]
    omega
  · rfl

/-- C3 counterexample: the claim presupposes a fixed failure threshold
for `EVVMPlugin.runBenchmark`, but no nonnegative threshold can
characterise its failure count: with all-zero random draws (which cross
any nonnegative threshold) and one transaction in serial mode, the code
still counts zero failures, because `runBenchmark` injects no random
failures at all. -/
theorem evvm_benchmark_no_failure_threshold :
    ¬ ∃ threshold : Rat, 0 ≤ threshold ∧
      ∀ (env : RunEnv) (inst : EVVMInstance) (n cc : Nat),
        (runBenchmark env inst "serial" n cc).failedTransactions
          = ((List.range n).filter
              (fun i => decide ((env.perTx i).rand 1 ≤ threshold))).length := by
  rintro ⟨θ, hθ, h⟩
  have h1 := h zeroRunEnv sampleInstance 1 4
  have h2 : (runBenchmark zeroRunEnv sampleInstance "serial" 1 4).failedTransactions = 0 := by
    have hrfl : (runBenchmark zeroRunEnv sampleInstance "serial" 1 4).failedTransactions
        = 1 - (runBenchmark zeroRunEnv sampleInstance "serial" 1 4).successfulTransactions :=
      rfl
    have hs := (runBenchmark_succ zeroRunEnv sampleInstance "serial" 1 4 (by omega)).2
      (Or.inl rfl)
    rw [hrfl, hs]
  have hr : (zeroRunEnv.perTx 0).rand 1 = 0 := rfl
  have h3 : ((List.range 1).filter
      (fun i => decide ((zeroRunEnv.perTx i).rand 1 ≤ θ))).length = 1 := by
    have hone : List.range 1 = [0] := rfl
    rw [hone]
    simp [List.filter, hr, hθ]
  rw [h2, h3] at h1
  exact absurd h1 (by omega)

/-- C3 (amended): for `ArcologyClient`, a transaction is counted as
failed exactly when its success draw falls at or below the fixed
threshold (`0.05` serial, `0.01` parallel), each failure contributes one
error string, and `errors.length = failedTransactions`; for
`EVVMPlugin.runBenchmark` there is no failure injection at all — in all
three modes no transaction is ever counted failed and `errors` is empty
(so `errors.length = failedTransactions` holds trivially). -/
theorem failure_threshold_characterization (es : Nat → TxEnv)
    (txs : List ArcologyTransaction) (c : Nat) (hc : 1 ≤ c) (now1 now2 : Int)
    (env : RunEnv) (inst : EVVMInstance) (n cc : Nat) (hcc : 1 ≤ cc) :
    (∀ (e : TxEnv) (i : Nat),
        (arcologySerialTx e i).success = false ↔ e.rand 1 ≤ 1/20)
    ∧ (∀ (e : TxEnv) (gi ti : Nat),
        (arcologyParallelTx e gi ti).success = false ↔ e.rand 1 ≤ 1/100)
    ∧ (calculateBenchmarkResult "serial" (executeSerial (attachEnvs txs es))
          txs.length now1).failedTransactions
        = ((List.range txs.length).filter (fun i => decide ((es i).rand 1 ≤ 1/20))).length
    ∧ (calculateBenchmarkResult "serial" (executeSerial (attachEnvs txs es))
          txs.length now1).errors.length
        = (calculateBenchmarkResult "serial" (executeSerial (attachEnvs txs es))
            txs.length now1).failedTransactions
    ∧ (calculateBenchmarkResult "parallel" (executeParallel (attachEnvs txs es) c)
          txs.length now2).failedTransactions
        = ((List.range txs.length).filter (fun i => decide ((es i).rand 1 ≤ 1/100))).length
    ∧ (calculateBenchmarkResult "parallel" (executeParallel (attachEnvs txs es) c)
          txs.length now2).errors.length
        = (calculateBenchmarkResult "parallel" (executeParallel (attachEnvs txs es) c)
            txs.length now2).failedTransactions
    ∧ (∀ m, (m = "serial" ∨ m = "parallel" ∨ m = "evvm-async") →
        (runBenchmark env inst m n cc).failedTransactions = 0
        ∧ (runBenchmark env inst m n cc).errors = []) := by
  refine ⟨?_, ?_, calc_serial_failed es txs now1, calcResult_errors_length _ _ _ _,
    calc_parallel_failed es txs c (by omega) now2, calcResult_errors_length _ _ _ _,
    fun m hm => runBenchmark_no_failures env inst m n cc (by omega) hm⟩
  · intro e i
    rw [arcologySerialTx_success]
    simp [not_lt]
  · intro e gi ti
    rw [arcologyParallelTx_success]
    simp [not_lt]

/-- Witness for the amended C3 theorem at a concrete run: with an
all-zero draw the single serial Arcology transaction is counted as
failed. -/
theorem failure_threshold_characterization_witness :
    (1 : Nat) ≤ 2
    ∧ (calculateBenchmarkResult "serial"
          (executeSerial (attachEnvs [sampleArcologyTx] (fun _ => zeroTxEnv)))
          [sampleArcologyTx].length 0).failedTransactions
      = ((List.range [sampleArcologyTx].length).filter
          (fun i => decide (((fun _ => zeroTxEnv) i).rand 1 ≤ 1/20))).length :=
  ⟨by omega,
   (failure_threshold_characterization (fun _ => zeroTxEnv) [sampleArcologyTx] 2 (by omega)
     0 0 zeroRunEnv sampleInstance 1 4 (by omega)).2.2.1⟩

end VSandbox
